import Mathlib

/-!
Verification of the AQI core of the AirQuality repository (aqi/views.py and
aqi/models.py), as a shallow embedding in Lean 4.

Concentrations are modelled as exact rationals (ℚ); Python's `round` (used on
float results of the breakpoint interpolation and of daily means) is modelled
as round-half-to-even on ℚ, which is the idealisation the specification fixes
for determinism.  Python dicts whose key sets are fixed by the code are
modelled as structures; dict entries that the code may omit (the pollutant
fields of filtered hourly/daily rows) are modelled as `Option` fields where
`none` means "key absent" and `some none` means "key present with value None".
-/

namespace AirQuality

/-- Python's `round` on an exact rational: round half to even. -/
def pyRound (q : ℚ) : ℤ :=
  let f := ⌊q⌋
  let r := q - (f : ℚ)
  if r < 1/2 then f
  else if 1/2 < r then f + 1
  else if f % 2 = 0 then f else f + 1

/-- Python's `round(q, 2)`: round to two decimal places, half to even. -/
def pyRound2 (q : ℚ) : ℚ :=
  (pyRound (q * 100) : ℚ) / 100

/-- The `BREAKPOINTS` table of aqi/views.py: for each of the keys
`"pm2_5"`, `"pm10"`, `"o3"` an ordered list of segments
`(conc_lo, conc_hi, index_lo, index_hi)`.  The Python dict raises on any
other key; the code only ever indexes it with these three keys, and the
embedding returns `[]` (hence no sub-index) elsewhere. -/
def BREAKPOINTS (p : String) : List (ℚ × ℚ × ℚ × ℚ) :=
  if p = "pm2_5" then
    [(0.0, 12.0, 0, 50), (12.1, 35.4, 51, 100), (35.5, 55.4, 101, 150),
     (55.5, 150.4, 151, 200), (150.5, 250.4, 201, 300), (250.5, 350.4, 301, 400),
     (350.5, 500.4, 401, 500)]
  else if p = "pm10" then
    [(0, 54, 0, 50), (55, 154, 51, 100), (155, 254, 101, 150),
     (255, 354, 151, 200), (355, 424, 201, 300), (425, 504, 301, 400),
     (505, 604, 401, 500)]
  else if p = "o3" then
    [(0.000, 0.054, 0, 50), (0.055, 0.070, 51, 100), (0.071, 0.085, 101, 150),
     (0.086, 0.105, 151, 200), (0.106, 0.200, 201, 300)]
  else []

/-- `ugm3_to_ppm_o3` of aqi/views.py: ozone µg/m³ → ppm via a molar-volume
approximation.  `MW = 48.0`. -/
def ugm3_to_ppm_o3 (ugm3 temp_c pressure_hpa : ℚ) : ℚ :=
  let MW : ℚ := 48.0
  let T := temp_c + 273.15
  let Vm := 24.45 * (T / 298.15) * (1013.25 / pressure_hpa)
  (ugm3 / 1000.0) * (Vm / MW)

/-- `ugm3_to_ppm_o3` applied at its default arguments
(`temp_c = 25.0`, `pressure_hpa = 1013.25`), the only way views.py calls it. -/
def ugm3_to_ppm_o3_default (ugm3 : ℚ) : ℚ :=
  ugm3_to_ppm_o3 ugm3 25.0 1013.25

/-- The inner `subindex` helper of `compute_us_aqi`: first segment of the
pollutant's table containing `x` wins; `None` when `x` lies in no segment. -/
def subindex (p : String) (x : ℚ) : Option ℤ :=
  (BREAKPOINTS p).findSome? fun seg =>
    match seg with
    | (lo, hi, Ilo, Ihi) =>
      if lo ≤ x ∧ x ≤ hi then some (pyRound ((Ihi - Ilo) / (hi - lo) * (x - lo) + Ilo))
      else none

/-- A `PollutantSample`: the `vals` dict of views.py with its six fixed keys,
each mapped to an optional concentration. -/
structure Sample where
  pm2_5 : Option ℚ
  pm10 : Option ℚ
  o3 : Option ℚ
  co : Option ℚ
  no2 : Option ℚ
  so2 : Option ℚ
deriving DecidableEq, Repr

/-- The all-absent sample (`{}` restricted to the six known keys). -/
def emptySample : Sample :=
  { pm2_5 := none, pm10 := none, o3 := none, co := none, no2 := none, so2 := none }

/-- `compute_us_aqi` of aqi/views.py: sub-indices of the present values of
`pm2_5`, `pm10` and `o3` (ozone converted to ppm and clamped to `[0, 0.200]`
first), then the maximum of the computed ones, `0` if none. -/
def compute_us_aqi (vals : Sample) : ℤ :=
  let candidates :=
    (match vals.pm2_5 with
     | some pm => [subindex "pm2_5" pm]
     | none => []) ++
    (match vals.pm10 with
     | some pm10 => [subindex "pm10" pm10]
     | none => []) ++
    (match vals.o3 with
     | some o3ug =>
       let o3ppm := ugm3_to_ppm_o3_default o3ug
       let o3ppm := max 0.0 (min o3ppm 0.200)
       [subindex "o3" o3ppm]
     | none => [])
  ((candidates.filterMap id).max?).getD 0

/-- `aqi_category` of aqi/views.py. -/
def aqi_category (aqi : ℤ) : String × String :=
  if aqi ≤ 50 then ("Good", "#009966")
  else if aqi ≤ 100 then ("Moderate", "#FFDE33")
  else if aqi ≤ 150 then ("Unhealthy for Sensitive Groups", "#FF9933")
  else if aqi ≤ 200 then ("Unhealthy", "#CC0033")
  else if aqi ≤ 300 then ("Very Unhealthy", "#660099")
  else ("Hazardous", "#7E0023")

/-- `pollutant_subindices` of aqi/views.py: an insertion-ordered association
list (the Python dict `out`), one entry per present AQI-relevant pollutant,
each valued by `compute_us_aqi` of the single-pollutant sample. -/
def pollutant_subindices (vals : Sample) : List (String × ℤ) :=
  (match vals.pm2_5 with
   | some v => [("pm2_5", compute_us_aqi { emptySample with pm2_5 := some v })]
   | none => []) ++
  (match vals.pm10 with
   | some v => [("pm10", compute_us_aqi { emptySample with pm10 := some v })]
   | none => []) ++
  (match vals.o3 with
   | some v => [("o3", compute_us_aqi { emptySample with o3 := some v })]
   | none => [])

/-- One comparison step of Python's `max(items, key=lambda kv: kv[1])`:
the accumulator is replaced only on a strictly greater value, so earlier
entries win ties. -/
def maxStep (acc y : String × ℤ) : String × ℤ :=
  if acc.2 < y.2 then y else acc

/-- Python's `max(items, key=lambda kv: kv[1])` on a non-empty association
list: the first entry holding the maximal value.  `none` on `[]` (the code
guards with `if subs else None`). -/
def maxByVal (l : List (String × ℤ)) : Option (String × ℤ) :=
  match l with
  | [] => none
  | x :: xs => some (xs.foldl maxStep x)

/-- `dominant` of `home` in aqi/views.py:
`max(subs.items(), key=lambda kv: kv[1])[0] if subs else None`. -/
def dominantOf (vals : Sample) : Option String :=
  (maxByVal (pollutant_subindices vals)).map (·.1)

/-- `UserVisibility` of aqi/models.py: per-pollutant boolean flags plus the
AQI-tile gate. -/
structure UserVisibility where
  can_pm2_5 : Bool
  can_pm10 : Bool
  can_o3 : Bool
  can_co : Bool
  can_no2 : Bool
  can_so2 : Bool
  can_aqi : Bool
deriving DecidableEq, Repr

/-- `UserVisibility.allowed_keys` of aqi/models.py. -/
def UserVisibility.allowed_keys (v : UserVisibility) : List String :=
  (if v.can_pm2_5 then ["pm2_5"] else []) ++
  (if v.can_pm10 then ["pm10"] else []) ++
  (if v.can_o3 then ["o3"] else []) ++
  (if v.can_co then ["co"] else []) ++
  (if v.can_no2 then ["no2"] else []) ++
  (if v.can_so2 then ["so2"] else [])

/-- The `base_series` dict of `home`: the timestamp sequence plus the six raw
pollutant arrays (array entries may be null). -/
structure Series where
  time : List String
  pm2_5 : List (Option ℚ)
  pm10 : List (Option ℚ)
  o3 : List (Option ℚ)
  co : List (Option ℚ)
  no2 : List (Option ℚ)
  so2 : List (Option ℚ)
deriving DecidableEq, Repr

/-- An hourly-row dict of `home`/`_filter_by_visibility`: `time` and `aqi` are
always set; each pollutant field is `none` when the dict key is absent
(dropped by filtering) and `some v` when the key is present with optional
value `v`. -/
structure HourlyRow where
  time : String
  pm2_5 : Option (Option ℚ)
  pm10 : Option (Option ℚ)
  o3 : Option (Option ℚ)
  aqi : ℤ
deriving DecidableEq, Repr

/-- A daily-row dict of `home`/`_filter_by_visibility`, with the same key
present/absent convention as `HourlyRow`. -/
structure DailyRow where
  day : String
  pm2_5 : Option (Option ℚ)
  pm10 : Option (Option ℚ)
  o3 : Option (Option ℚ)
  aqi : ℤ
deriving DecidableEq, Repr

/-- Key-indexed read of a sample, for the six keys the code iterates over
(`cur_vals.get(k)`). -/
def Sample.get (s : Sample) (k : String) : Option ℚ :=
  if k = "pm2_5" then s.pm2_5
  else if k = "pm10" then s.pm10
  else if k = "o3" then s.o3
  else if k = "co" then s.co
  else if k = "no2" then s.no2
  else if k = "so2" then s.so2
  else none

/-- Key-indexed read of a series' pollutant arrays (`series.get(k, [])`). -/
def Series.get (s : Series) (k : String) : List (Option ℚ) :=
  if k = "pm2_5" then s.pm2_5
  else if k = "pm10" then s.pm10
  else if k = "o3" then s.o3
  else if k = "co" then s.co
  else if k = "no2" then s.no2
  else if k = "so2" then s.so2
  else []

/-- Key-indexed read of an hourly row's pollutant fields (`row.get(k)` at the
outer level: `none` = key absent). -/
def HourlyRow.getF (r : HourlyRow) (k : String) : Option (Option ℚ) :=
  if k = "pm2_5" then r.pm2_5
  else if k = "pm10" then r.pm10
  else if k = "o3" then r.o3
  else none

/-- Key-indexed read of a daily row's pollutant fields. -/
def DailyRow.getF (r : DailyRow) (k : String) : Option (Option ℚ) :=
  if k = "pm2_5" then r.pm2_5
  else if k = "pm10" then r.pm10
  else if k = "o3" then r.o3
  else none

/-- The 6-tuple `_filter_by_visibility` returns, as a named record. -/
structure FilterOut where
  current : Sample
  series : Series
  hourly : List HourlyRow
  daily : List DailyRow
  aqi_now : ℤ
  aqi_cat_color : String × String
deriving DecidableEq, Repr

/-- One step of the hourly-row filtering loop of `_filter_by_visibility`:
`new = {"time": row["time"], "aqi": row.get("aqi")}` plus each allowed
pollutant key set to `row.get(k)` (which is `None` when the key is absent,
hence the `Option.join`). -/
def filterHourlyRow (allowed : List String) (row : HourlyRow) : HourlyRow :=
  { time := row.time
    aqi := row.aqi
    pm2_5 := if "pm2_5" ∈ allowed then some row.pm2_5.join else none
    pm10 := if "pm10" ∈ allowed then some row.pm10.join else none
    o3 := if "o3" ∈ allowed then some row.o3.join else none }

/-- One step of the daily-row filtering loop of `_filter_by_visibility`. -/
def filterDailyRow (allowed : List String) (row : DailyRow) : DailyRow :=
  { day := row.day
    aqi := row.aqi
    pm2_5 := if "pm2_5" ∈ allowed then some row.pm2_5.join else none
    pm10 := if "pm10" ∈ allowed then some row.pm10.join else none
    o3 := if "o3" ∈ allowed then some row.o3.join else none }

/-- `_filter_by_visibility` of aqi/views.py.  `user` carries the viewer's
optional `UserVisibility` (`getattr(user, "visibility", None)`); a missing
policy passes everything through. -/
def filter_by_visibility (user : Option UserVisibility) (cur_vals : Sample)
    (series : Series) (hourly_rows : List HourlyRow) (daily_rows : List DailyRow)
    (aqi_now : ℤ) (aqi_cat_color : String × String) : FilterOut :=
  match user with
  | none =>
    { current := cur_vals, series := series, hourly := hourly_rows,
      daily := daily_rows, aqi_now := aqi_now, aqi_cat_color := aqi_cat_color }
  | some vis =>
    let allowed := vis.allowed_keys
    let aqi_now := if vis.can_aqi then aqi_now else 0
    let aqi_cat_color := if vis.can_aqi then aqi_cat_color else ("Hidden", "#999999")
    let filtered_current : Sample :=
      { pm2_5 := if "pm2_5" ∈ allowed then cur_vals.pm2_5 else none
        pm10 := if "pm10" ∈ allowed then cur_vals.pm10 else none
        o3 := if "o3" ∈ allowed then cur_vals.o3 else none
        co := if "co" ∈ allowed then cur_vals.co else none
        no2 := if "no2" ∈ allowed then cur_vals.no2 else none
        so2 := if "so2" ∈ allowed then cur_vals.so2 else none }
    let filtered_series : Series :=
      { time := series.time
        pm2_5 := if "pm2_5" ∈ allowed then series.pm2_5 else []
        pm10 := if "pm10" ∈ allowed then series.pm10 else []
        o3 := if "o3" ∈ allowed then series.o3 else []
        co := if "co" ∈ allowed then series.co else []
        no2 := if "no2" ∈ allowed then series.no2 else []
        so2 := if "so2" ∈ allowed then series.so2 else [] }
    { current := filtered_current
      series := filtered_series
      hourly := hourly_rows.map (filterHourlyRow allowed)
      daily := daily_rows.map (filterDailyRow allowed)
      aqi_now := aqi_now
      aqi_cat_color := aqi_cat_color }

/-- The expression `arr[i] if arr else None` of the hourly-row loop of `home`:
an empty (or missing, hence empty) array yields `None`; a non-empty array is
indexed and raises `IndexError` past its end, modelled as `Except.error`. -/
def arrayAt (arr : List (Option ℚ)) (i : ℕ) : Except String (Option ℚ) :=
  if arr = [] then .ok none
  else
    match arr.get? i with
    | some v => .ok v
    | none => .error "IndexError"

/-- The hourly-row construction loop of `home` (`for i, t in enumerate(times)`):
one row per timestamp, each pollutant key always present (possibly with value
`None`), `aqi` recomputed from that hour's three AQI-relevant values.  Any
`IndexError` aborts the whole computation (caught upstream as the request
error). -/
def buildHourlyRows (times : List String) (pm25 pm10v o3v : List (Option ℚ)) :
    Except String (List HourlyRow) :=
  times.enum.mapM fun it =>
    match it with
    | (i, t) => do
      let p25 ← arrayAt pm25 i
      let p10 ← arrayAt pm10v i
      let oz ← arrayAt o3v i
      .ok { time := t, pm2_5 := some p25, pm10 := some p10, o3 := some oz,
            aqi := compute_us_aqi { emptySample with pm2_5 := p25, pm10 := p10, o3 := oz } }

/-- `row["time"][:10]`: the UTC calendar day of an hourly row. -/
def dayOf (r : HourlyRow) : String := r.time.take 10

/-- `mean_safe` of `home`, applied to the bucketed values (which the bucket
loop only ever fills with non-null entries): mean rounded to 2 decimals,
`None` for an empty list. -/
def mean_safe (lst : List ℚ) : Option ℚ :=
  if lst = [] then none else some (pyRound2 (lst.sum / (lst.length : ℚ)))

/-- `bucket[day][k]` for a pollutant `k`: the non-null values of the rows of
that day, in row order (the rows of `home` always carry the three pollutant
keys, so the `Option.join` reads the stored value). -/
def dayValues (rows : List HourlyRow) (day : String) (f : HourlyRow → Option (Option ℚ)) :
    List ℚ :=
  (rows.filter (fun r => dayOf r = day)).filterMap (fun r => (f r).join)

/-- `bucket[day]["aqi"]`: every hourly AQI of that day, in row order. -/
def dayAqis (rows : List HourlyRow) (day : String) : List ℤ :=
  (rows.filter (fun r => dayOf r = day)).map (·.aqi)

/-- One output dict of the daily loop of `home`. -/
def mkDailyRow (rows : List HourlyRow) (day : String) : DailyRow :=
  { day := day
    pm2_5 := some (mean_safe (dayValues rows day (fun r => r.pm2_5)))
    pm10 := some (mean_safe (dayValues rows day (fun r => r.pm10)))
    o3 := some (mean_safe (dayValues rows day (fun r => r.o3)))
    aqi := ((dayAqis rows day).max?).getD 0 }

/-- The daily aggregation of `home`: bucket hourly rows by day prefix, then
emit one `DailyRow` per day in `sorted(bucket.items())` order.  The bucket's
key set in first-insertion order is `(rows.map dayOf).dedup`; `sorted` on the
distinct day strings is the unique ascending ordering, modelled by
`insertionSort`. -/
def dailyFromHourly (rows : List HourlyRow) : List DailyRow :=
  let days := List.insertionSort (· ≤ ·) ((rows.map dayOf).dedup)
  days.map (mkDailyRow rows)

/-- The final `context["result"]` payload of `home` (minus the `place` name,
which is pure geocoding glue): `subindices` and `dominant` come from the
unfiltered `cur_vals`; the remaining fields come out of
`_filter_by_visibility`. -/
structure ResultPayload where
  aqi : ℤ
  category : String
  color : String
  dominant : Option String
  subindices : List (String × ℤ)
  current : Sample
  series : Series
  hourly : List HourlyRow
  daily : List DailyRow
deriving DecidableEq, Repr

/-- The result-assembly tail of `home`: compute the current AQI, category,
sub-indices and dominant pollutant from `cur_vals`, run the visibility
filter, and build the payload. -/
def buildResult (user : Option UserVisibility) (cur_vals : Sample) (base_series : Series)
    (hourly_rows : List HourlyRow) (daily_rows : List DailyRow) : ResultPayload :=
  let aqi_now := compute_us_aqi cur_vals
  let cc := aqi_category aqi_now
  let subs := pollutant_subindices cur_vals
  let dom := dominantOf cur_vals
  let f := filter_by_visibility user cur_vals base_series hourly_rows daily_rows aqi_now cc
  { aqi := f.aqi_now, category := f.aqi_cat_color.1, color := f.aqi_cat_color.2,
    dominant := dom, subindices := subs, current := f.current, series := f.series,
    hourly := f.hourly, daily := f.daily }

/-- Following the specification's words for the AQI Aggregator: the
sub-indices computed for the present (non-null) values of `pm2_5`, `pm10`
and `o3`, the ozone concentration converted to ppm (default temperature and
pressure) and clamped to `[0.0, 0.200]` before lookup.  Kept separate from
`compute_us_aqi` (the source translation) so the two can be compared. -/
def specSubindices (vals : Sample) : List ℤ :=
  [vals.pm2_5.bind (subindex "pm2_5"),
   vals.pm10.bind (subindex "pm10"),
   vals.o3.bind (fun ug =>
     subindex "o3" (max 0.0 (min (ugm3_to_ppm_o3_default ug) 0.200)))].filterMap id

/-- The expression `arr.get? i |>.getD none`, the value the hourly-row loop
reads for index `i` when the pollutant array is non-empty and long enough;
`none` for an empty array (padding). -/
def padVal (arr : List (Option ℚ)) (i : ℕ) : Option ℚ :=
  if arr = [] then none else (arr.get? i).getD none

/-- The hourly row the loop of `home` produces for the enumerated timestamp
`it = (i, t)` when no index error occurs: every pollutant key present, value
read by `padVal`. -/
def buildRow (pm25 pm10v o3v : List (Option ℚ)) (it : ℕ × String) : HourlyRow :=
  { time := it.2
    pm2_5 := some (padVal pm25 it.1)
    pm10 := some (padVal pm10v it.1)
    o3 := some (padVal o3v it.1)
    aqi := compute_us_aqi { emptySample with
      pm2_5 := padVal pm25 it.1, pm10 := padVal pm10v it.1, o3 := padVal o3v it.1 } }

/-- A sample whose `pm2_5` and `pm10` sub-indices are both exactly 50
(each concentration sits at the top of its pollutant's first segment),
exercising the dominant-pollutant tie-break. -/
def tieSample : Sample :=
  { emptySample with pm2_5 := some 12.0, pm10 := some 54 }

/-- Two hourly rows on the same UTC day (AQI 40 and 70, pm2_5 10.0 and 20.0),
the daily-aggregation example of the specification. -/
def exampleRows : List HourlyRow :=
  [{ time := "2024-01-01T00:00", pm2_5 := some (some 10), pm10 := some none,
     o3 := some none, aqi := 40 },
   { time := "2024-01-01T05:00", pm2_5 := some (some 20), pm10 := some none,
     o3 := some none, aqi := 70 }]

/-- An all-false visibility policy. -/
def hideAll : UserVisibility :=
  { can_pm2_5 := false, can_pm10 := false, can_o3 := false, can_co := false,
    can_no2 := false, can_so2 := false, can_aqi := false }

/-- A policy allowing every pollutant but hiding the AQI tile. -/
def hideAqiOnly : UserVisibility :=
  { can_pm2_5 := true, can_pm10 := true, can_o3 := true, can_co := true,
    can_no2 := true, can_so2 := true, can_aqi := false }

/-- A small concrete series payload used by witnesses. -/
def exampleSeries : Series :=
  { time := ["2024-01-01T00:00"], pm2_5 := [some 10], pm10 := [some 60],
    o3 := [none], co := [some 3], no2 := [], so2 := [some 7] }

/-- A concrete current sample used by witnesses. -/
def exampleSample : Sample :=
  { pm2_5 := some 10, pm10 := some 60, o3 := none, co := some 3,
    no2 := none, so2 := some 7 }


/-! ## Helper lemmas -/

theorem compute_o3_only (ug : ℚ) :
    compute_us_aqi { emptySample with o3 := some ug } =
      (subindex "o3" (max 0.0 (min (ugm3_to_ppm_o3_default ug) 0.200))).getD 0 := by
  cases h : subindex "o3" (max 0.0 (min (ugm3_to_ppm_o3_default ug) 0.200)) <;>
    simp [compute_us_aqi, emptySample, h]

theorem le_foldl_maxStep (xs : List (String × ℤ)) (x : String × ℤ) :
    x.2 ≤ (xs.foldl maxStep x).2 := by
  induction xs generalizing x with
  | nil => exact le_refl _
  | cons y ys ih =>
    simp only [List.foldl_cons]
    by_cases h : x.2 < y.2
    · rw [maxStep, if_pos h]
      exact le_trans h.le (ih y)
    · rw [maxStep, if_neg h]
      exact ih x

theorem foldl_maxStep_split (xs : List (String × ℤ)) (x : String × ℤ) :
    ∃ l1 l2, x :: xs = l1 ++ (xs.foldl maxStep x) :: l2 ∧
      (∀ p ∈ l1, p.2 < (xs.foldl maxStep x).2) ∧
      (∀ p ∈ l2, p.2 ≤ (xs.foldl maxStep x).2) := by
  induction xs generalizing x with
  | nil => exact ⟨[], [], rfl, by simp, by simp⟩
  | cons y ys ih =>
    by_cases h : x.2 < y.2
    · have hm : maxStep x y = y := if_pos h
      simp only [List.foldl_cons, hm]
      obtain ⟨l1, l2, heq, hl1, hl2⟩ := ih y
      have hxr : x.2 < (ys.foldl maxStep y).2 := lt_of_lt_of_le h (le_foldl_maxStep ys y)
      refine ⟨x :: l1, l2, ?_, ?_, hl2⟩
      · rw [List.cons_append, ← heq]
      · intro p hp
        rcases List.mem_cons.mp hp with rfl | hp'
        · exact hxr
        · exact hl1 p hp'
    · have hm : maxStep x y = x := if_neg h
      simp only [List.foldl_cons, hm]
      obtain ⟨l1, l2, heq, hl1, hl2⟩ := ih x
      cases l1 with
      | nil =>
        simp only [List.nil_append] at heq
        injection heq with hr hys
        refine ⟨[], y :: ys, ?_, by simp, ?_⟩
        · rw [List.nil_append, ← hr]
        · intro p hp
          rcases List.mem_cons.mp hp with rfl | hp'
          · rw [← hr]; exact not_lt.mp h
          · exact hl2 p (hys ▸ hp')
      | cons a l1t =>
        injection heq with ha hys
        rw [List.append_eq] at hys
        refine ⟨x :: y :: l1t, l2, ?_, ?_, hl2⟩
        · rw [List.cons_append, List.cons_append, ← hys]
        · intro p hp
          have hxlt : x.2 < (ys.foldl maxStep x).2 := by
            have hx := hl1 a (List.mem_cons_self _ _)
            rwa [← ha] at hx
          rcases List.mem_cons.mp hp with rfl | hp'
          · exact hxlt
          · rcases List.mem_cons.mp hp' with rfl | hp''
            · exact lt_of_le_of_lt (not_lt.mp h) hxlt
            · exact hl1 p (List.mem_cons_of_mem _ hp'')

theorem if_opt_idem {p : Prop} [Decidable p] (x : Option ℚ) :
    (if p then (if p then x else none) else none) = (if p then x else none) := by
  by_cases h : p <;> simp [h]

theorem if_list_idem {p : Prop} [Decidable p] (x : List (Option ℚ)) :
    (if p then (if p then x else []) else []) = (if p then x else []) := by
  by_cases h : p <;> simp [h]

theorem filterHourlyRow_idem (allowed : List String) (r : HourlyRow) :
    filterHourlyRow allowed (filterHourlyRow allowed r) = filterHourlyRow allowed r := by
  unfold filterHourlyRow
  by_cases h1 : "pm2_5" ∈ allowed <;> by_cases h2 : "pm10" ∈ allowed <;>
    by_cases h3 : "o3" ∈ allowed <;> simp [h1, h2, h3]

theorem filterDailyRow_idem (allowed : List String) (r : DailyRow) :
    filterDailyRow allowed (filterDailyRow allowed r) = filterDailyRow allowed r := by
  unfold filterDailyRow
  by_cases h1 : "pm2_5" ∈ allowed <;> by_cases h2 : "pm10" ∈ allowed <;>
    by_cases h3 : "o3" ∈ allowed <;> simp [h1, h2, h3]

theorem map_filterHourlyRow_idem (allowed : List String) (hr : List HourlyRow) :
    (hr.map (filterHourlyRow allowed)).map (filterHourlyRow allowed) =
      hr.map (filterHourlyRow allowed) := by
  rw [List.map_map]
  exact List.map_congr_left fun r _ => filterHourlyRow_idem allowed r

theorem map_filterDailyRow_idem (allowed : List String) (dr : List DailyRow) :
    (dr.map (filterDailyRow allowed)).map (filterDailyRow allowed) =
      dr.map (filterDailyRow allowed) := by
  rw [List.map_map]
  exact List.map_congr_left fun r _ => filterDailyRow_idem allowed r

theorem mapM_ok {α β : Type} (f : α → Except String β) (g : α → β) :
    ∀ (l : List α), (∀ x ∈ l, f x = .ok (g x)) → l.mapM f = .ok (l.map g)
  | [], _ => rfl
  | x :: xs, h => by
    rw [List.mapM_cons, h x (List.mem_cons_self _ _),
      mapM_ok f g xs (fun y hy => h y (List.mem_cons_of_mem _ hy))]
    rfl

theorem arrayAt_ok (times : List String) (arr : List (Option ℚ))
    (h : arr = [] ∨ times.length ≤ arr.length) (i : ℕ) (hi : i < times.length) :
    arrayAt arr i = .ok (padVal arr i) := by
  rcases h with rfl | hlen
  · rfl
  · rcases eq_or_ne arr [] with rfl | hne
    · rfl
    · unfold arrayAt padVal
      rw [if_neg hne, if_neg hne, List.get?_eq_get (lt_of_lt_of_le hi hlen)]
      rfl

/-! ## Claim theorems -/

/-- C1: `compute_us_aqi` returns the maximum of the sub-indices computed for
the present values of `pm2_5`, `pm10` and `o3` (ozone converted and clamped
first) and exactly `0` when no sub-index could be computed; on the empty
sample it returns `0` with category `("Good", "#009966")`; and the values of
`co`, `no2`, `so2` never affect the result. -/
theorem compute_us_aqi_spec :
    (∀ vals : Sample, compute_us_aqi vals = ((specSubindices vals).max?).getD 0) ∧
    compute_us_aqi emptySample = 0 ∧
    aqi_category (compute_us_aqi emptySample) = ("Good", "#009966") ∧
    (∀ (vals : Sample) (c n s : Option ℚ),
      compute_us_aqi { vals with co := c, no2 := n, so2 := s } = compute_us_aqi vals) := by
  refine ⟨?_, rfl, rfl, fun vals c n s => rfl⟩
  intro vals
  rcases vals with ⟨p, q, o, _, _, _⟩
  cases p <;> cases q <;> cases o <;> rfl

/-- C2: after the visibility filter runs, a pollutant key outside the policy's
permitted set never carries data in any output shape: its current-tile value
is `none`, its series array is `[]`, and every filtered hourly and daily row
omits the key entirely. -/
theorem visibility_completeness (vis : UserVisibility) (cur : Sample) (ser : Series)
    (hr : List HourlyRow) (dr : List DailyRow) (a : ℤ) (c : String × String)
    (k : String) (hmem : k ∈ ["pm2_5", "pm10", "o3", "co", "no2", "so2"])
    (hk : k ∉ vis.allowed_keys) :
    (filter_by_visibility (some vis) cur ser hr dr a c).current.get k = none ∧
    (filter_by_visibility (some vis) cur ser hr dr a c).series.get k = [] ∧
    (∀ r ∈ (filter_by_visibility (some vis) cur ser hr dr a c).hourly, r.getF k = none) ∧
    (∀ r ∈ (filter_by_visibility (some vis) cur ser hr dr a c).daily, r.getF k = none) := by
  fin_cases hmem <;>
    refine ⟨?_, ?_, ?_, ?_⟩ <;>
    simp [filter_by_visibility, Sample.get, Series.get, HourlyRow.getF, DailyRow.getF,
      filterHourlyRow, filterDailyRow, hk]

/-- C2 witness: the all-hidden policy redacts `pm2_5` from every shape of a
concrete result. -/
theorem visibility_completeness_witness :
    ("pm2_5" ∈ ["pm2_5", "pm10", "o3", "co", "no2", "so2"] ∧
     "pm2_5" ∉ hideAll.allowed_keys) ∧
    ((filter_by_visibility (some hideAll) exampleSample exampleSeries exampleRows [] 70
        ("Moderate", "#FFDE33")).current.get "pm2_5" = none ∧
     (filter_by_visibility (some hideAll) exampleSample exampleSeries exampleRows [] 70
        ("Moderate", "#FFDE33")).series.get "pm2_5" = [] ∧
     (∀ r ∈ (filter_by_visibility (some hideAll) exampleSample exampleSeries exampleRows [] 70
        ("Moderate", "#FFDE33")).hourly, r.getF "pm2_5" = none) ∧
     (∀ r ∈ (filter_by_visibility (some hideAll) exampleSample exampleSeries exampleRows [] 70
        ("Moderate", "#FFDE33")).daily, r.getF "pm2_5" = none)) :=
  have hmem : "pm2_5" ∈ ["pm2_5", "pm10", "o3", "co", "no2", "so2"] := by simp
  have hk : "pm2_5" ∉ hideAll.allowed_keys := by
    simp [hideAll, UserVisibility.allowed_keys]
  ⟨⟨hmem, hk⟩, visibility_completeness hideAll exampleSample exampleSeries exampleRows [] 70
    ("Moderate", "#FFDE33") "pm2_5" hmem hk⟩

/-- C3: for a non-empty list of hourly rows, the daily aggregation groups rows
by the 10-character day prefix of their timestamp, emits the days in strictly
ascending order with no day repeated or dropped, and each daily row carries
per-pollutant rounded means over the non-null values of its day (null when
all null) and the maximum hourly AQI of its day. -/
theorem daily_aggregation_spec (rows : List HourlyRow) (hne : rows ≠ []) :
    List.Sorted (· < ·) ((dailyFromHourly rows).map (fun d => d.day)) ∧
    (∀ r ∈ rows, dayOf r ∈ (dailyFromHourly rows).map (fun d => d.day)) ∧
    (∀ d ∈ dailyFromHourly rows,
      (∃ r ∈ rows, dayOf r = d.day) ∧
      d.pm2_5 = some (mean_safe (dayValues rows d.day (fun r => r.pm2_5))) ∧
      d.pm10 = some (mean_safe (dayValues rows d.day (fun r => r.pm10))) ∧
      d.o3 = some (mean_safe (dayValues rows d.day (fun r => r.o3))) ∧
      (dayAqis rows d.day).max? = some d.aqi) := by
  have hdays : (dailyFromHourly rows).map (fun d => d.day)
      = List.insertionSort (· ≤ ·) ((rows.map dayOf).dedup) := by
    unfold dailyFromHourly
    rw [List.map_map]
    rw [show ((fun d => DailyRow.day d) ∘ mkDailyRow rows) = id from rfl, List.map_id]
  refine ⟨?_, ?_, ?_⟩
  · rw [hdays]
    exact (List.sorted_insertionSort (· ≤ ·) _).lt_of_le
      (((List.perm_insertionSort _ _).nodup_iff).mpr (List.nodup_dedup _))
  · intro r hr
    rw [hdays, (List.perm_insertionSort _ _).mem_iff, List.mem_dedup]
    exact List.mem_map_of_mem _ hr
  · intro d hd
    unfold dailyFromHourly at hd
    obtain ⟨day, hday, rfl⟩ := List.mem_map.mp hd
    have hdmem : day ∈ rows.map dayOf := by
      rw [← List.mem_dedup, ← (List.perm_insertionSort (· ≤ ·) _).mem_iff]
      exact hday
    obtain ⟨r, hr, hrd⟩ := List.mem_map.mp hdmem
    have hex : ∃ r ∈ rows, dayOf r = (mkDailyRow rows day).day := ⟨r, hr, hrd⟩
    refine ⟨hex, rfl, rfl, rfl, ?_⟩
    have hfil : r ∈ rows.filter (fun q => dayOf q = day) :=
      List.mem_filter.mpr ⟨hr, by simp [hrd]⟩
    have hne2 : dayAqis rows day ≠ [] := by
      unfold dayAqis
      intro hcon
      rw [List.map_eq_nil_iff] at hcon
      rw [hcon] at hfil
      exact (List.not_mem_nil r) hfil
    obtain ⟨m, hm⟩ := Option.ne_none_iff_exists'.mp
      (fun hno => hne2 (List.max?_eq_none_iff.mp hno))
    show (dayAqis rows day).max? = some ((mkDailyRow rows day).aqi)
    rw [hm]
    unfold mkDailyRow
    rw [hm]
    rfl

/-- C3 witness: the aggregation of the specification's two-row example
(same day, AQI 40 and 70, pm2_5 10 and 20). -/
theorem daily_aggregation_spec_witness :
    exampleRows ≠ [] ∧
    (List.Sorted (· < ·) ((dailyFromHourly exampleRows).map (fun d => d.day)) ∧
     (∀ r ∈ exampleRows, dayOf r ∈ (dailyFromHourly exampleRows).map (fun d => d.day)) ∧
     (∀ d ∈ dailyFromHourly exampleRows,
       (∃ r ∈ exampleRows, dayOf r = d.day) ∧
       d.pm2_5 = some (mean_safe (dayValues exampleRows d.day (fun r => r.pm2_5))) ∧
       d.pm10 = some (mean_safe (dayValues exampleRows d.day (fun r => r.pm10))) ∧
       d.o3 = some (mean_safe (dayValues exampleRows d.day (fun r => r.o3))) ∧
       (dayAqis exampleRows d.day).max? = some d.aqi)) :=
  have hne : exampleRows ≠ [] := by simp [exampleRows]
  ⟨hne, daily_aggregation_spec exampleRows hne⟩

/-- C4: the dominant pollutant is `none` exactly when no sub-indices were
computed; otherwise it is the key of the first entry holding the maximal
sub-index in the fixed iteration order `pm2_5, pm10, o3`: every earlier
entry is strictly smaller and every later entry is no larger. -/
theorem dominant_spec :
    (∀ vals : Sample, (dominantOf vals = none ↔ pollutant_subindices vals = [])) ∧
    (∀ (vals : Sample) (k : String), dominantOf vals = some k →
      ∃ l1 v l2, pollutant_subindices vals = l1 ++ (k, v) :: l2 ∧
        (∀ p ∈ l1, p.2 < v) ∧ (∀ p ∈ l2, p.2 ≤ v)) := by
  constructor
  · intro vals
    cases hsub : pollutant_subindices vals with
    | nil => simp [dominantOf, maxByVal, hsub]
    | cons x xs => simp [dominantOf, maxByVal, hsub]
  · intro vals k hk
    cases hsub : pollutant_subindices vals with
    | nil => simp [dominantOf, maxByVal, hsub] at hk
    | cons x xs =>
      simp only [dominantOf, maxByVal, hsub, Option.map_some', Option.some.injEq] at hk
      obtain ⟨l1, l2, heq, h1, h2⟩ := foldl_maxStep_split xs x
      refine ⟨l1, (xs.foldl maxStep x).2, l2, ?_, h1, h2⟩
      rw [← hk, Prod.mk.eta]
      exact heq

/-- C4 witness: on a sample whose `pm2_5` and `pm10` sub-indices tie at 50,
the dominant pollutant is `pm2_5`, the first maximum in iteration order. -/
theorem dominant_spec_witness :
    dominantOf tieSample = some "pm2_5" ∧
    (∃ l1 v l2, pollutant_subindices tieSample = l1 ++ ("pm2_5", v) :: l2 ∧
      (∀ p ∈ l1, p.2 < v) ∧ (∀ p ∈ l2, p.2 ≤ v)) := by
  have h25 : subindex "pm2_5" (12.0:ℚ) = some 50 := by
    norm_num [subindex, BREAKPOINTS, List.findSome?, pyRound]
  have h10 : subindex "pm10" (54:ℚ) = some 50 := by
    norm_num [subindex, BREAKPOINTS, List.findSome?, pyRound]
  have hdom : dominantOf tieSample = some "pm2_5" := by
    simp [dominantOf, maxByVal, pollutant_subindices, tieSample, emptySample,
      compute_us_aqi, h25, h10, maxStep]
  exact ⟨hdom, dominant_spec.2 tieSample "pm2_5" hdom⟩

/-- C5 counterexample: `54.5` lies in the gap of the pm10 table, so its
sub-index is absent — yet `pollutant_subindices` still exposes the entry
`("pm10", 0)`, exactly what a genuinely computed zero (pm10 = 0) produces,
contradicting the claim that the absence propagates to the exposed map as an
absent entry distinct from a computed zero. -/
theorem subindex_gap_counterexample :
    subindex "pm10" (54.5 : ℚ) = none ∧
    pollutant_subindices { emptySample with pm10 := some (54.5 : ℚ) } = [("pm10", 0)] ∧
    pollutant_subindices { emptySample with pm10 := some (0 : ℚ) } = [("pm10", 0)] := by
  have hnone : subindex "pm10" (54.5:ℚ) = none := by
    norm_num [subindex, BREAKPOINTS, List.findSome?]
  have hzero : subindex "pm10" (0:ℚ) = some 0 := by
    norm_num [subindex, BREAKPOINTS, List.findSome?, pyRound]
  refine ⟨hnone, ?_, ?_⟩ <;>
    simp [pollutant_subindices, compute_us_aqi, emptySample, hnone, hzero]

/-- C5 amended: an out-of-segment concentration yields an absent sub-index
(not zero, not an error) and contributes nothing to `compute_us_aqi` — but
the per-pollutant map exposed for the sample still contains the key with
value 0, indistinguishable from a computed zero. -/
theorem subindex_gap_amended :
    (∀ x : ℚ, 54 < x → x < 55 → subindex "pm10" x = none) ∧
    (∀ x : ℚ, subindex "pm10" x = none →
      compute_us_aqi { emptySample with pm10 := some x } = 0 ∧
      pollutant_subindices { emptySample with pm10 := some x } = [("pm10", 0)]) ∧
    (∀ x : ℚ, subindex "pm2_5" x = none →
      compute_us_aqi { emptySample with pm2_5 := some x } = 0 ∧
      pollutant_subindices { emptySample with pm2_5 := some x } = [("pm2_5", 0)]) := by
  refine ⟨?_, ?_, ?_⟩
  · intro x h1 h2
    have n1 : ¬((0:ℚ) ≤ x ∧ x ≤ 54) := by rintro ⟨_, hx⟩; linarith
    have n2 : ¬((55:ℚ) ≤ x ∧ x ≤ 154) := by rintro ⟨hx, _⟩; linarith
    have n3 : ¬((155:ℚ) ≤ x ∧ x ≤ 254) := by rintro ⟨hx, _⟩; linarith
    have n4 : ¬((255:ℚ) ≤ x ∧ x ≤ 354) := by rintro ⟨hx, _⟩; linarith
    have n5 : ¬((355:ℚ) ≤ x ∧ x ≤ 424) := by rintro ⟨hx, _⟩; linarith
    have n6 : ¬((425:ℚ) ≤ x ∧ x ≤ 504) := by rintro ⟨hx, _⟩; linarith
    have n7 : ¬((505:ℚ) ≤ x ∧ x ≤ 604) := by rintro ⟨hx, _⟩; linarith
    simp [subindex, BREAKPOINTS, List.findSome?, n1, n2, n3, n4, n5, n6, n7]
  · intro x hsub
    constructor
    · simp [compute_us_aqi, emptySample, hsub]
    · simp [pollutant_subindices, compute_us_aqi, emptySample, hsub]
  · intro x hsub
    constructor
    · simp [compute_us_aqi, emptySample, hsub]
    · simp [pollutant_subindices, compute_us_aqi, emptySample, hsub]

/-- C5 witness: the amended claim applied at the gap value 54.5. -/
theorem subindex_gap_amended_witness :
    subindex "pm10" (54.5:ℚ) = none ∧
    (compute_us_aqi { emptySample with pm10 := some (54.5:ℚ) } = 0 ∧
     pollutant_subindices { emptySample with pm10 := some (54.5:ℚ) } = [("pm10", 0)]) :=
  have h54 : subindex "pm10" (54.5:ℚ) = none :=
    subindex_gap_amended.1 54.5 (by norm_num) (by norm_num)
  ⟨h54, subindex_gap_amended.2.1 54.5 h54⟩

/-- C6: when the converted ozone concentration exceeds 0.200 ppm, the clamp
saturates it to exactly 0.200, the resulting overall index equals the
sub-index computed at exactly 0.200 ppm, and that sub-index is `some 300`
(the top breakpoint), never absent or an error. -/
theorem o3_saturation (ug : ℚ) (h : (0.200 : ℚ) < ugm3_to_ppm_o3_default ug) :
    max 0.0 (min (ugm3_to_ppm_o3_default ug) 0.200) = (0.200 : ℚ) ∧
    compute_us_aqi { emptySample with o3 := some ug } = (subindex "o3" 0.200).getD 0 ∧
    subindex "o3" (0.200 : ℚ) = some 300 := by
  have hclamp : max 0.0 (min (ugm3_to_ppm_o3_default ug) 0.200) = (0.200 : ℚ) := by
    rw [min_eq_right h.le]
    norm_num
  refine ⟨hclamp, ?_, by norm_num [subindex, BREAKPOINTS, List.findSome?, pyRound]⟩
  rw [compute_o3_only, hclamp]

/-- C6 witness: 500 µg/m³ converts to 0.2546875 ppm > 0.200 ppm. -/
theorem o3_saturation_witness :
    (0.200 : ℚ) < ugm3_to_ppm_o3_default 500 ∧
    (max 0.0 (min (ugm3_to_ppm_o3_default 500) 0.200) = (0.200 : ℚ) ∧
     compute_us_aqi { emptySample with o3 := some 500 } = (subindex "o3" 0.200).getD 0 ∧
     subindex "o3" (0.200 : ℚ) = some 300) := by
  have h : (0.200 : ℚ) < ugm3_to_ppm_o3_default 500 := by
    norm_num [ugm3_to_ppm_o3_default, ugm3_to_ppm_o3]
  exact ⟨h, o3_saturation 500 h⟩

/-- C7: with the AQI-tile gate off, the filter forces the viewer-facing AQI to
0 and the category/color to `("Hidden", "#999999")`, and its entire output is
independent of the computed AQI value and category passed in (the underlying
computed values are inputs and are left untouched). -/
theorem aqi_gate_hidden (vis : UserVisibility) (h : vis.can_aqi = false)
    (cur : Sample) (ser : Series) (hr : List HourlyRow) (dr : List DailyRow)
    (a b : ℤ) (c d : String × String) :
    (filter_by_visibility (some vis) cur ser hr dr a c).aqi_now = 0 ∧
    (filter_by_visibility (some vis) cur ser hr dr a c).aqi_cat_color = ("Hidden", "#999999") ∧
    filter_by_visibility (some vis) cur ser hr dr a c =
      filter_by_visibility (some vis) cur ser hr dr b d := by
  simp [filter_by_visibility, h]

/-- C7 witness: a policy hiding only the AQI tile, applied to a concrete
result with computed AQI 137. -/
theorem aqi_gate_hidden_witness :
    hideAqiOnly.can_aqi = false ∧
    ((filter_by_visibility (some hideAqiOnly) exampleSample exampleSeries [] [] 137
        ("Unhealthy for Sensitive Groups", "#FF9933")).aqi_now = 0 ∧
     (filter_by_visibility (some hideAqiOnly) exampleSample exampleSeries [] [] 137
        ("Unhealthy for Sensitive Groups", "#FF9933")).aqi_cat_color = ("Hidden", "#999999") ∧
     filter_by_visibility (some hideAqiOnly) exampleSample exampleSeries [] [] 137
        ("Unhealthy for Sensitive Groups", "#FF9933") =
       filter_by_visibility (some hideAqiOnly) exampleSample exampleSeries [] [] 42
        ("Good", "#009966")) :=
  ⟨rfl, aqi_gate_hidden hideAqiOnly rfl exampleSample exampleSeries [] [] 137 42
    ("Unhealthy for Sensitive Groups", "#FF9933") ("Good", "#009966")⟩

/-- C8: the visibility filter is idempotent — applying it twice with the same
policy (including the no-policy pass-through) to the five output shapes plus
the AQI scalar and category/color pair equals applying it once. -/
theorem filter_idempotent (user : Option UserVisibility) (cur : Sample) (ser : Series)
    (hr : List HourlyRow) (dr : List DailyRow) (a : ℤ) (c : String × String) :
    filter_by_visibility user
        (filter_by_visibility user cur ser hr dr a c).current
        (filter_by_visibility user cur ser hr dr a c).series
        (filter_by_visibility user cur ser hr dr a c).hourly
        (filter_by_visibility user cur ser hr dr a c).daily
        (filter_by_visibility user cur ser hr dr a c).aqi_now
        (filter_by_visibility user cur ser hr dr a c).aqi_cat_color
      = filter_by_visibility user cur ser hr dr a c := by
  cases user with
  | none => rfl
  | some vis =>
    by_cases hq : vis.can_aqi <;>
      simp [filter_by_visibility, hq, FilterOut.mk.injEq, Sample.mk.injEq, Series.mk.injEq,
        if_opt_idem, if_list_idem, map_filterHourlyRow_idem, map_filterDailyRow_idem] <;>
      exact ⟨fun r _ => filterHourlyRow_idem _ r, fun r _ => filterDailyRow_idem _ r⟩

/-- C9 counterexample: a non-empty pm2_5 array shorter than the timestamp
sequence makes the hourly-row construction raise `IndexError` (surfaced as
the request error) instead of padding. -/
theorem padding_counterexample :
    buildHourlyRows ["2024-01-01T00:00", "2024-01-01T01:00"] [some 1] [] [] =
      .error "IndexError" := rfl

/-- C9 amended: when every pollutant array is empty or at least as long as
the timestamp sequence, the construction succeeds, emits one row per
timestamp, and treats an empty (missing) array as all-null padding; a
non-empty array shorter than the timestamps instead fails (see the
counterexample). -/
theorem padding_amended (times : List String) (pm25 pm10v o3v : List (Option ℚ))
    (h25 : pm25 = [] ∨ times.length ≤ pm25.length)
    (h10 : pm10v = [] ∨ times.length ≤ pm10v.length)
    (h3 : o3v = [] ∨ times.length ≤ o3v.length) :
    ∃ rows, buildHourlyRows times pm25 pm10v o3v = .ok rows ∧
      rows.length = times.length ∧
      rows.map (fun r => r.time) = times ∧
      (pm25 = [] → ∀ r ∈ rows, r.pm2_5 = some none) ∧
      (pm10v = [] → ∀ r ∈ rows, r.pm10 = some none) ∧
      (o3v = [] → ∀ r ∈ rows, r.o3 = some none) := by
  refine ⟨times.enum.map (buildRow pm25 pm10v o3v), ?_, ?_, ?_, ?_, ?_, ?_⟩
  · unfold buildHourlyRows
    apply mapM_ok
    intro it hit
    have hi : it.1 < times.length := by
      have := List.mem_enum_iff_getElem?.mp hit
      exact (List.getElem?_eq_some.mp this).1
    obtain ⟨i, t⟩ := it
    simp only at hi
    dsimp only
    rw [arrayAt_ok times pm25 h25 i hi, arrayAt_ok times pm10v h10 i hi,
      arrayAt_ok times o3v h3 i hi]
    rfl
  · simp [List.enum_length]
  · rw [List.map_map]
    have : (fun r => HourlyRow.time r) ∘ buildRow pm25 pm10v o3v = Prod.snd := rfl
    rw [this, List.enum_map_snd]
  · rintro rfl r hr
    obtain ⟨it, _, rfl⟩ := List.mem_map.mp hr
    simp [buildRow, padVal]
  · rintro rfl r hr
    obtain ⟨it, _, rfl⟩ := List.mem_map.mp hr
    simp [buildRow, padVal]
  · rintro rfl r hr
    obtain ⟨it, _, rfl⟩ := List.mem_map.mp hr
    simp [buildRow, padVal]

/-- C9 witness: two timestamps with an empty pm2_5 array (padded), a
three-element pm10 array (long enough) and an empty ozone array. -/
theorem padding_amended_witness :
    (([] : List (Option ℚ)) = [] ∨ (2:ℕ) ≤ ([] : List (Option ℚ)).length) ∧
    (∃ rows, buildHourlyRows ["2024-01-01T00:00", "2024-01-01T01:00"] []
        [some 60, some 70, some 80] [] = .ok rows ∧
      rows.length = (["2024-01-01T00:00", "2024-01-01T01:00"] : List String).length ∧
      rows.map (fun r => r.time) = ["2024-01-01T00:00", "2024-01-01T01:00"] ∧
      (([] : List (Option ℚ)) = [] → ∀ r ∈ rows, r.pm2_5 = some none) ∧
      ([some 60, some 70, some 80] = ([] : List (Option ℚ)) → ∀ r ∈ rows, r.pm10 = some none) ∧
      (([] : List (Option ℚ)) = [] → ∀ r ∈ rows, r.o3 = some none)) :=
  ⟨Or.inl rfl,
   padding_amended ["2024-01-01T00:00", "2024-01-01T01:00"] [] [some 60, some 70, some 80] []
     (Or.inl rfl) (Or.inr (by simp)) (Or.inl rfl)⟩

/-- C10: the `subindices` and `dominant` fields of the final payload are
computed from the unfiltered current sample and are unaffected by whatever
visibility policy the filter runs with. -/
theorem subindices_dominant_unfiltered (user : Option UserVisibility) (cur : Sample)
    (ser : Series) (hr : List HourlyRow) (dr : List DailyRow) :
    (buildResult user cur ser hr dr).subindices = pollutant_subindices cur ∧
    (buildResult user cur ser hr dr).dominant = dominantOf cur :=
  ⟨rfl, rfl⟩

end AirQuality
